import Mathlib

/-!
Verification of the classification core of `lw_export_overrides.py`
(LibreWolf overrides exporter).

The embedding follows the source file `src/lw_export_overrides.py`:
string operations work on `List Char` (Python `str` operations on the
characters of the name); a compiled regular expression is modelled by its
matching function `String → Bool`, and each concrete built-in pattern is
translated into the small fragment of regex syntax the source actually
uses (anchored literal, anchored prefix, and anchored alternation of
literals).
-/

namespace LWExport

/-- Python `needle in hay` on character lists: `needle` occurs as a
contiguous sublist of `hay`. Executable by scanning every suffix. -/
def isInfixB (needle : List Char) : List Char → Bool
  | [] => needle.isEmpty
  | c :: rest => needle.isPrefixOf (c :: rest) || isInfixB needle rest

/-- Python `s.startswith(p)` (source line 229: `name.startswith(p)`). -/
def str_startswith (s p : String) : Bool :=
  p.data.isPrefixOf s.data

/-- Python `sub in s` (source line 234: `s in n`). -/
def str_contains (s sub : String) : Bool :=
  isInfixB sub.data s.data

/-- Python `s.lower()` (source line 233: `name.lower()`); ASCII names,
char-wise lowering. -/
def str_lower (s : String) : String :=
  ⟨s.data.map Char.toLower⟩

/-- The shape of every regular-expression pattern appearing in
`DEFAULT_EXCLUDE_REGEXES` and `DEFAULT_INCLUDE_REGEXES` of the source:
`^pre(a₁|a₂|…)$` when `anchoredEnd` is true and `^pre(a₁|a₂|…)` otherwise
(a pattern without alternation has the single alternative `""`). -/
structure CompiledRE where
  pre : String
  alts : List String
  anchoredEnd : Bool
deriving Repr, DecidableEq

/-- Python `r.search(name)` for a pattern of shape `CompiledRE`: since the
pattern starts with `^`, a search hit is a match at position 0, i.e. the
name starts with `pre ++ alt` (and ends there when `$` is present;
`$` is modelled as end-of-string, which agrees with Python on
newline-free names). -/
def re_search (r : CompiledRE) (name : String) : Bool :=
  r.alts.any fun a =>
    if r.anchoredEnd then name.data = (r.pre ++ a).data
    else (r.pre ++ a).data.isPrefixOf name.data

/-- Source lines 213-237, `should_exclude`: allowlist (include regexes)
first, then explicit exclude regexes, then prefixes, then case-folded
substrings; default is keep (`false`). Compiled regexes are passed as
their matching functions. -/
def should_exclude (name : String)
    (exclude_prefixes : List String)
    (exclude_substrings : List String)
    (exclude_regexes : List (String → Bool))
    (include_regexes : List (String → Bool)) : Bool :=
  if include_regexes.any (fun r => r name) then false
  else if exclude_regexes.any (fun r => r name) then true
  else if exclude_prefixes.any (fun p => str_startswith name p) then true
  else
    let n := str_lower name
    if exclude_substrings.any (fun s => str_contains n s) then true
    else false

/-- Source lines 19-37, `DEFAULT_EXCLUDE_PREFIXES`. -/
def DEFAULT_EXCLUDE_PREFIXES : List String := [
  "browser.sessionstore.",
  "browser.startup.",
  "browser.engagement.",
  "browser.migration.",
  "browser.protections_panel.",
  "browser.termsofuse.",
  "devtools.",
  "services.settings.",
  "browser.region.",
  "network.captive-portal-service.",
  "network.connectivity-service.",
  "browser.safebrowsing.provider.",
  "extensions.webextensions.ExtensionStorageIDB.migrated.",
  "toolkit.telemetry.cached",
  "datareporting.dau.cached",
  "nimbus.",
  "dom.push."
]

/-- Source lines 40-88, `DEFAULT_EXCLUDE_SUBSTRINGS`. -/
def DEFAULT_EXCLUDE_SUBSTRINGS : List String := [
  "impressionid", "storeid", "profileid", "clientid", "userid",
  "pushid", "installationid", "instanceid", "deviceid", "machineid",
  "guid",
  "last", "next", "date", "time", "seconds", "count", "counter",
  "etag", "skew", "pending", "qualified",
  "migrat", "version", "schema", "checkpoint", "has-used", "ever",
  "seen", "shown", "mostrecent",
  "persistedactions", "uicustomization", "resultgroups",
  "quarantineddomains", "tempdirsuffix", "blacklist.", "failureid",
  "hashvalue", "buildid"
]

/-- Source lines 91-106, `DEFAULT_EXCLUDE_REGEXES`, each pattern string
translated into its `CompiledRE` shape. -/
def DEFAULT_EXCLUDE_REGEXES : List CompiledRE := [
  ⟨"privacy.purge_trackers.", ["last_purge", "date_in_cookie_database"], true⟩,
  ⟨"privacy.sanitize.pending", [""], true⟩,
  ⟨"browser.search.totalSearches", [""], true⟩,
  ⟨"browser.pageActions.persistedActions", [""], true⟩,
  ⟨"browser.uiCustomization.state", [""], true⟩,
  ⟨"browser.urlbar.resultGroups", [""], true⟩,
  ⟨"extensions.quarantinedDomains.list", [""], true⟩,
  ⟨"security.sandbox.content.tempDirSuffix", [""], true⟩,
  ⟨"gfx.blacklist.", [""], false⟩,
  ⟨"media.gmp-", [""], false⟩,
  ⟨"print.printer_", [""], false⟩,
  ⟨"print.printer.", [""], false⟩,
  ⟨"print_printer", [""], true⟩
]

/-- Source lines 110-144, `DEFAULT_INCLUDE_REGEXES`, each pattern string
translated into its `CompiledRE` shape. -/
def DEFAULT_INCLUDE_REGEXES : List CompiledRE := [
  ⟨"media.eme.enabled", [""], true⟩,
  ⟨"browser.bookmarks.file", [""], true⟩,
  ⟨"beacon.enabled", [""], true⟩,
  ⟨"network.trr.", [""], false⟩,
  ⟨"network.dns.", [""], false⟩,
  ⟨"browser.contentblocking.", [""], false⟩,
  ⟨"privacy.trackingprotection.", [""], false⟩,
  ⟨"privacy.globalprivacycontrol.", ["enabled", "pbmode"], true⟩,
  ⟨"privacy.resistFingerprinting", [""], true⟩,
  ⟨"privacy.partition.", [""], false⟩,
  ⟨"privacy.firstparty.isolate", [""], true⟩,
  ⟨"privacy.query_stripping.", [""], false⟩,
  ⟨"privacy.userContext.", [""], false⟩,
  ⟨"dom.forms.autocomplete.formautofill", [""], true⟩,
  ⟨"toolkit.telemetry.", ["enabled", "unified", "server"], true⟩,
  ⟨"toolkit.telemetry.archive.enabled", [""], true⟩,
  ⟨"toolkit.telemetry.reportingpolicy.", [""], false⟩,
  ⟨"datareporting.healthreport.", [""], false⟩,
  ⟨"datareporting.policy.", [""], false⟩,
  ⟨"browser.safebrowsing.",
    ["downloads.remote.enabled", "downloads.remote.url",
     "malware.enabled", "phishing.enabled"], true⟩,
  ⟨"dom.security.", [""], false⟩,
  ⟨"security.", [""], false⟩
]

/-- The exclude-prefix list `main` builds at line 281 with no
caller-supplied additions. -/
def default_prefixes : List String := DEFAULT_EXCLUDE_PREFIXES ++ []

/-- The exclude-substring list `main` builds at line 282 with no
caller-supplied additions: defaults lowercased. -/
def default_substrings : List String :=
  (DEFAULT_EXCLUDE_SUBSTRINGS ++ []).map str_lower

/-- The compiled exclude-regex matchers `main` builds at line 283 with no
caller-supplied additions. -/
def default_exclude_res : List (String → Bool) :=
  DEFAULT_EXCLUDE_REGEXES.map re_search

/-- The compiled include-regex matchers `main` builds at line 284 with no
caller-supplied additions. -/
def default_include_res : List (String → Bool) :=
  DEFAULT_INCLUDE_REGEXES.map re_search

/-- `should_exclude` under the built-in default rule set, exactly as
`main` invokes it (line 290) when no caller additions are supplied. -/
def should_exclude_default (name : String) : Bool :=
  should_exclude name default_prefixes default_substrings
    default_exclude_res default_include_res

example : should_exclude_default "browser.sessionstore.window_state" = true := by decide
example : should_exclude_default "privacy.resistFingerprinting" = false := by decide
example : should_exclude_default "security.sandbox.content.tempDirSuffix" = false := by decide
example : should_exclude_default "extensions.webextensions.uuids" = false := by decide
example : should_exclude_default "" = false := by decide
example : should_exclude_default "privacy.sanitize.pending" = true := by decide

/-- Source lines 286-293, the classification loop of `main`: each
(name, value) pair is appended to `dropped` when `should_exclude` holds
and to `kept` otherwise, in input order. -/
def partition (exclude_prefixes exclude_substrings : List String)
    (exclude_regexes include_regexes : List (String → Bool)) :
    List (String × String) → List (String × String) × List (String × String)
  | [] => ([], [])
  | (name, value) :: rest =>
    let (kept, dropped) := partition exclude_prefixes exclude_substrings
      exclude_regexes include_regexes rest
    if should_exclude name exclude_prefixes exclude_substrings
        exclude_regexes include_regexes then
      (kept, (name, value) :: dropped)
    else
      ((name, value) :: kept, dropped)

/-- Source lines 209-210, `compile_regexes`: compiles each pattern string
in order, propagating the first failure (Python's `re.error` raised by
`re.compile` inside the list comprehension). The regex engine itself is
outside the source, so the single-pattern compiler is a parameter. -/
def compile_regexes (compile : String → Option (String → Bool)) :
    List String → Option (List (String → Bool))
  | [] => some []
  | p :: rest =>
    match compile p with
    | none => none
    | some r =>
      match compile_regexes compile rest with
      | none => none
      | some rs => some (r :: rs)

/-- Source lines 91-106, `DEFAULT_EXCLUDE_REGEXES` as the raw pattern
strings handed to `compile_regexes` by `main` (line 283). -/
def DEFAULT_EXCLUDE_REGEX_STRINGS : List String := [
  "^privacy\\.purge_trackers\\.(last_purge|date_in_cookie_database)$",
  "^privacy\\.sanitize\\.pending$",
  "^browser\\.search\\.totalSearches$",
  "^browser\\.pageActions\\.persistedActions$",
  "^browser\\.uiCustomization\\.state$",
  "^browser\\.urlbar\\.resultGroups$",
  "^extensions\\.quarantinedDomains\\.list$",
  "^security\\.sandbox\\.content\\.tempDirSuffix$",
  "^gfx\\.blacklist\\.",
  "^media\\.gmp-",
  "^print\\.printer_",
  "^print\\.printer\\.",
  "^print_printer$"
]

/-- Source lines 110-144, `DEFAULT_INCLUDE_REGEXES` as the raw pattern
strings handed to `compile_regexes` by `main` (line 284). -/
def DEFAULT_INCLUDE_REGEX_STRINGS : List String := [
  "^media\\.eme\\.enabled$",
  "^browser\\.bookmarks\\.file$",
  "^beacon\\.enabled$",
  "^network\\.trr\\.",
  "^network\\.dns\\.",
  "^browser\\.contentblocking\\.",
  "^privacy\\.trackingprotection\\.",
  "^privacy\\.globalprivacycontrol\\.(enabled|pbmode)$",
  "^privacy\\.resistFingerprinting$",
  "^privacy\\.partition\\.",
  "^privacy\\.firstparty\\.isolate$",
  "^privacy\\.query_stripping\\.",
  "^privacy\\.userContext\\.",
  "^dom\\.forms\\.autocomplete\\.formautofill$",
  "^toolkit\\.telemetry\\.(enabled|unified|server)$",
  "^toolkit\\.telemetry\\.archive\\.enabled$",
  "^toolkit\\.telemetry\\.reportingpolicy\\.",
  "^datareporting\\.healthreport\\.",
  "^datareporting\\.policy\\.",
  "^browser\\.safebrowsing\\.(downloads\\.remote\\.enabled|downloads\\.remote\\.url|malware\\.enabled|phishing\\.enabled)$",
  "^dom\\.security\\.",
  "^security\\."
]

/-- Source lines 281-293 of `main`, the rule-set construction followed by
the classification loop: the two `compile_regexes` calls (lines 283-284)
run before any preference is classified, and a compilation failure aborts
the run (Python's uncaught `re.error`) with no partition produced. -/
def main_filter (compile : String → Option (String → Bool))
    (user_prefixes user_substrings user_ex_regexes user_in_regexes : List String)
    (prefs : List (String × String)) :
    Except String (List (String × String) × List (String × String)) :=
  let exclude_prefixes := DEFAULT_EXCLUDE_PREFIXES ++ user_prefixes
  let exclude_substrings :=
    (DEFAULT_EXCLUDE_SUBSTRINGS ++ user_substrings).map str_lower
  match compile_regexes compile
      (DEFAULT_EXCLUDE_REGEX_STRINGS ++ user_ex_regexes) with
  | none => Except.error "invalid pattern"
  | some exclude_regexes =>
    match compile_regexes compile
        (DEFAULT_INCLUDE_REGEX_STRINGS ++ user_in_regexes) with
    | none => Except.error "invalid pattern"
    | some include_regexes =>
      Except.ok (partition exclude_prefixes exclude_substrings
        exclude_regexes include_regexes prefs)

/-- Python `\s` (core ASCII whitespace class), used by the `\s*` pieces of
`PREF_RE`. -/
def isPyWs (c : Char) : Bool :=
  c = ' ' || c = '\t' || c = '\n' || c = '\r' || c = '\x0b' || c = '\x0c'

/-- The trailer `\s*\);\s*$` of `PREF_RE`: greedy whitespace (no
backtracking is possible since `)` is not whitespace), then the literal
`);`, then whitespace to the end of the line. -/
def trailer_ok (t : List Char) : Bool :=
  match t.dropWhile isPyWs with
  | ')' :: ';' :: rest => rest.all isPyWs
  | _ => false

/-- The non-greedy `(?P<value>.+?)` of `PREF_RE` followed by its trailer:
the shortest non-empty newline-free prefix of `t` after which
`trailer_ok` holds. -/
def find_value : List Char → Option (List Char)
  | [] => none
  | c :: rest =>
    if c = '\n' then none
    else if trailer_ok rest then some [c]
    else
      match find_value rest with
      | some v => some (c :: v)
      | none => none

/-- Backtracking of the greedy `\s*` before the value group: the regex
engine first consumes as much whitespace as possible (`i` characters) and
retries with less when the rest of the pattern fails. -/
def try_ws (t : List Char) : Nat → Option (List Char)
  | 0 => find_value t
  | i + 1 =>
    match find_value (t.drop (i + 1)) with
    | some v => some v
    | none => try_ws t i

/-- Strips an expected literal from the front of the input, failing when
the input does not start with it. -/
def dropLit : List Char → List Char → Option (List Char)
  | [], t => some t
  | _ :: _, [] => none
  | c :: cs, d :: ds => if c = d then dropLit cs ds else none

/-- Source line 10, `PREF_RE`, applied with `.match` (anchored at the
start of the line, source line 204):
`^\s*user_pref\("(?P<name>[^"]+)",\s*(?P<value>.+?)\s*\);\s*$`.
Returns the captured (name, value) on a hit. The name group `[^"]+` is
the maximal non-empty run of non-quote characters (backtracking it cannot
help: any shorter run puts a non-quote character where the pattern
requires `"`), which must be followed by the literal `",`. -/
def pref_match (line : String) : Option (String × String) :=
  let t := line.data.dropWhile isPyWs
  match dropLit "user_pref(\"".data t with
  | none => none
  | some t1 =>
    let name := t1.takeWhile (fun c => c != '"')
    if name.isEmpty then none
    else
      match dropLit "\",".data (t1.drop name.length) with
      | none => none
      | some t2 =>
        match try_ws t2 (t2.takeWhile isPyWs).length with
        | none => none
        | some v => some (⟨name⟩, ⟨v⟩)

/-- Source lines 201-206, `iter_user_prefs`: yields the captured
(name, value) pair of every line matching `PREF_RE`, skipping the rest.
The file is modelled as its list of lines. -/
def iter_user_prefs (lines : List String) : List (String × String) :=
  lines.filterMap pref_match

example : pref_match "user_pref(\"media.eme.enabled\", true);" =
    some ("media.eme.enabled", "true") := by decide
example : pref_match "  user_pref(\"a.b\", \"x);y\");  " =
    some ("a.b", "\"x);y\"") := by decide
example : pref_match "pref(\"a\", 1);" = none := by decide
example : pref_match "user_pref(\"\", 1);" = none := by decide
example : pref_match "user_pref(\"a\",   );" = some ("a", " ") := by decide
example : pref_match "user_pref(\"a\", 1) ;" = none := by decide

/-! ## Claim theorems -/

/-- C1 (counterexample): the name `security.sandbox.content.tempDirSuffix`
matches an exact-regex denylist pattern of the built-in default rule set,
yet `should_exclude` keeps it, because the allowlist (`^security\.`) is
checked first; the denylist-regex verdict does not win over the
allowlist, refuting the claim as stated. -/
theorem C1_counterexample :
    List.any default_exclude_res
      (fun r => r "security.sandbox.content.tempDirSuffix") = true ∧
    should_exclude_default "security.sandbox.content.tempDirSuffix" = false := by
  constructor
  · decide
  · decide

/-- C1 (amended): for every rule set and every name matching at least one
exact-regex denylist pattern and no allowlist regex, `should_exclude`
returns `true` (drop); the denylist-regex verdict cannot be overridden by
prefix-denylist or substring-denylist entries, but it is overridden by an
allowlist match. -/
theorem C1_denylist_regex_wins_without_allowlist
    (name : String) (ep es : List String) (er ir : List (String → Bool))
    (hex : er.any (fun r => r name) = true)
    (hin : ir.any (fun r => r name) = false) :
    should_exclude name ep es er ir = true := by
  unfold should_exclude
  simp [hin, hex]

/-- C1 (witness): `privacy.sanitize.pending` matches the default exclude
regex `^privacy\.sanitize\.pending$` and no default include regex, and is
dropped. -/
theorem C1_denylist_regex_wins_witness :
    should_exclude "privacy.sanitize.pending" default_prefixes
      default_substrings default_exclude_res default_include_res = true :=
  C1_denylist_regex_wins_without_allowlist "privacy.sanitize.pending"
    default_prefixes default_substrings default_exclude_res
    default_include_res (by decide) (by decide)

/-- C2: for every rule set and every name matching some allowlist regex
and no exact-regex denylist pattern, `should_exclude` returns `false`
(keep), whatever the prefix and substring denylists say: the allowlist
check short-circuits first. -/
theorem C2_allowlist_keeps_without_denylist_regex
    (name : String) (ep es : List String) (er ir : List (String → Bool))
    (hin : ir.any (fun r => r name) = true)
    (_hex : er.any (fun r => r name) = false) :
    should_exclude name ep es er ir = false := by
  unfold should_exclude
  simp [hin]

/-- C2 (witness): `privacy.resistFingerprinting` matches the default
allowlist regex `^privacy\.resistFingerprinting$` and no default exclude
regex, and is kept. -/
theorem C2_allowlist_keeps_witness :
    should_exclude "privacy.resistFingerprinting" default_prefixes
      default_substrings default_exclude_res default_include_res = false :=
  C2_allowlist_keeps_without_denylist_regex "privacy.resistFingerprinting"
    default_prefixes default_substrings default_exclude_res
    default_include_res (by decide) (by decide)

/-- C3: under the built-in default rule set,
`extensions.webextensions.uuids` is KEPT (`should_exclude` returns
`false`): no default exclude regex, exclude prefix, or exclude substring
matches it. This contradicts the claim (and the source's own header
comment, which promises identifiers are excluded). -/
theorem C3_uuids_kept_by_default :
    should_exclude_default "extensions.webextensions.uuids" = false := by
  decide

/-- C4: the classification loop of `main` is a true partition: the kept
output is exactly the subsequence of input occurrences classified keep,
the dropped output exactly the subsequence classified drop (hence each
occurrence lands in exactly one output, order preserved, no
deduplication), and the output lengths sum to the input length. -/
theorem C4_partition_is_true_partition
    (ep es : List String) (er ir : List (String → Bool))
    (prefs : List (String × String)) :
    (partition ep es er ir prefs).1 =
      prefs.filter (fun p => !should_exclude p.1 ep es er ir) ∧
    (partition ep es er ir prefs).2 =
      prefs.filter (fun p => should_exclude p.1 ep es er ir) ∧
    (partition ep es er ir prefs).1.length +
      (partition ep es er ir prefs).2.length = prefs.length := by
  induction prefs with
  | nil => simp [partition]
  | cons p rest ih =>
    obtain ⟨ih1, ih2, ih3⟩ := ih
    obtain ⟨n, v⟩ := p
    rw [ih1, ih2] at ih3
    by_cases h : should_exclude n ep es er ir = true
    · simp [partition, h, ih1, ih2, List.filter_cons]
      omega
    · rw [Bool.not_eq_true] at h
      simp [partition, h, ih1, ih2, List.filter_cons]
      omega

/-- C5: the classifier is deterministic and, as a total Lean function of
exactly the rule-set collections and the name, side-effect-free: two
calls of `should_exclude` on the same arguments return equal results, and
no call can modify the rule set (arguments are immutable values). -/
theorem C5_classifier_deterministic
    (name : String) (ep es : List String) (er ir : List (String → Bool)) :
    should_exclude name ep es er ir = should_exclude name ep es er ir := rfl

/-- C6: a name matching no allowlist regex, no exclude regex, no exclude
prefix, and (case-folded) containing no exclude substring falls through
every check of `should_exclude` to the final default-allow `false`. -/
theorem C6_default_allow
    (name : String) (ep es : List String) (er ir : List (String → Bool))
    (hin : ir.any (fun r => r name) = false)
    (hex : er.any (fun r => r name) = false)
    (hpre : ep.any (fun p => str_startswith name p) = false)
    (hsub : es.any (fun s => str_contains (str_lower name) s) = false) :
    should_exclude name ep es er ir = false := by
  unfold should_exclude
  simp [hin, hex, hpre, hsub]

/-- C6 (witness): under the built-in default rule set the empty-string
name matches nothing and is kept. -/
theorem C6_default_allow_witness :
    should_exclude "" default_prefixes default_substrings
      default_exclude_res default_include_res = false :=
  C6_default_allow "" default_prefixes default_substrings
    default_exclude_res default_include_res
    (by decide) (by decide) (by decide) (by decide)

/-- If some pattern in the list fails to compile, `compile_regexes` fails
(the first `re.error` raised inside the comprehension propagates). -/
theorem compile_regexes_none_of_bad
    (compile : String → Option (String → Bool)) (patterns : List String)
    (p : String) (hp : p ∈ patterns) (hbad : compile p = none) :
    compile_regexes compile patterns = none := by
  induction patterns with
  | nil => cases hp
  | cons q rest ih =>
    rcases List.mem_cons.mp hp with hq | hrest
    · subst hq
      unfold compile_regexes
      rw [hbad]
    · unfold compile_regexes
      cases hc : compile q with
      | none => rfl
      | some r => rw [ih hrest]

/-- C7: a caller-supplied rule-set extension pattern that does not compile
(exclude regex or include regex) makes `main_filter` abort with the
invalid-pattern error during rule-set construction; no partition — hence
no keep/drop decision for any input item — is produced in that run. -/
theorem C7_invalid_pattern_fails_fast
    (compile : String → Option (String → Bool))
    (up us uex uin : List String) (prefs : List (String × String))
    (h : (∃ p ∈ uex, compile p = none) ∨ (∃ p ∈ uin, compile p = none)) :
    main_filter compile up us uex uin prefs =
      Except.error "invalid pattern" := by
  rcases h with ⟨p, hp, hbad⟩ | ⟨p, hp, hbad⟩
  · have hnone : compile_regexes compile
        (DEFAULT_EXCLUDE_REGEX_STRINGS ++ uex) = none :=
      compile_regexes_none_of_bad compile _ p
        (List.mem_append.mpr (Or.inr hp)) hbad
    unfold main_filter
    rw [hnone]
  · have hnone : compile_regexes compile
        (DEFAULT_INCLUDE_REGEX_STRINGS ++ uin) = none :=
      compile_regexes_none_of_bad compile _ p
        (List.mem_append.mpr (Or.inr hp)) hbad
    unfold main_filter
    cases hex : compile_regexes compile
        (DEFAULT_EXCLUDE_REGEX_STRINGS ++ uex) with
    | none => rfl
    | some ers => rw [hnone]

/-- A regex compiler that rejects the lone pattern `(` and compiles
everything else to a never-matching pattern; only used to witness the
fail-fast behaviour. -/
def rejectOpenParen (s : String) : Option (String → Bool) :=
  if s = "(" then none else some (fun _ => false)

/-- C7 (witness): with the caller-supplied exclude-regex extension `(`
(an unbalanced, invalid pattern), the run aborts with the invalid-pattern
error even though a preference is waiting to be classified. -/
theorem C7_invalid_pattern_witness :
    main_filter rejectOpenParen [] [] ["("] [] [("a.b", "1")] =
      Except.error "invalid pattern" :=
  C7_invalid_pattern_fails_fast rejectOpenParen [] [] ["("] [] [("a.b", "1")]
    (Or.inl ⟨"(", List.mem_singleton.mpr rfl, rfl⟩)

/-- C8: `should_exclude` is total: on every name (empty, metacharacters,
non-ASCII alike) and every rule set it returns one of the two booleans
and cannot signal failure. -/
theorem C8_classifier_total
    (name : String) (ep es : List String) (er ir : List (String → Bool)) :
    should_exclude name ep es er ir = true ∨
    should_exclude name ep es er ir = false := by
  cases h : should_exclude name ep es er ir
  · exact Or.inr rfl
  · exact Or.inl rfl

/-- C9: the allowlist has absolute precedence in `should_exclude`: a name
matching any include regex is kept, whatever the exclude regexes,
prefixes, or substrings say — the allowlist check is the first test and
returns `false` immediately. -/
theorem C9_allowlist_absolute_precedence
    (name : String) (ep es : List String) (er ir : List (String → Bool))
    (hin : ir.any (fun r => r name) = true) :
    should_exclude name ep es er ir = false := by
  unfold should_exclude
  simp [hin]

/-- C9 (witness): `media.eme.enabled` matches the default allowlist regex
`^media\.eme\.enabled$` and is kept. -/
theorem C9_allowlist_precedence_witness :
    should_exclude "media.eme.enabled" default_prefixes default_substrings
      default_exclude_res default_include_res = false :=
  C9_allowlist_absolute_precedence "media.eme.enabled" default_prefixes
    default_substrings default_exclude_res default_include_res (by decide)

/-- A successful `pref_match` never captures an empty name: the name group
`[^"]+` requires at least one non-quote character. -/
theorem pref_match_name_ne_empty (line n v : String)
    (h : pref_match line = some (n, v)) : n ≠ "" := by
  unfold pref_match at h
  dsimp only at h
  split at h
  · exact absurd h (by simp)
  · rename_i t1 heq1
    split at h
    · exact absurd h (by simp)
    · rename_i hne
      split at h
      · exact absurd h (by simp)
      · rename_i t2 heq2
        split at h
        · exact absurd h (by simp)
        · rename_i val heq3
          injection h with h
          injection h with hn hv
          subst hn
          intro hcon
          have : (t1.takeWhile (fun c => c != '"')) = [] := by
            have := congrArg String.data hcon
            simpa using this
          rw [this] at hne
          simp at hne

/-- C10: every (name, value) pair yielded by `iter_user_prefs` has a
non-empty name: `PREF_RE`'s name group demands at least one non-quote
character, so the empty-name edge case cannot reach the classifier from
file input. -/
theorem C10_parsed_names_nonempty
    (lines : List String) (name value : String)
    (h : (name, value) ∈ iter_user_prefs lines) :
    name ≠ "" := by
  obtain ⟨line, _, hmatch⟩ := List.mem_filterMap.mp h
  exact pref_match_name_ne_empty line name value hmatch

/-- C10 (witness): the line `user_pref("a.b", 1);` is parsed to the pair
`("a.b", "1")`, whose name is non-empty. -/
theorem C10_parsed_names_witness :
    ("a.b", "1") ∈ iter_user_prefs ["user_pref(\"a.b\", 1);"] ∧
    ("a.b" : String) ≠ "" :=
  ⟨by decide,
   C10_parsed_names_nonempty ["user_pref(\"a.b\", 1);"] "a.b" "1" (by decide)⟩

end LWExport
